import Mathlib

/-!
Shallow embedding of the CI matrix generator in `.circleci/regenerate.py`.

The Python script expands a fixed build/test matrix (package type × OS ×
python version, resp. OS × device × python version) into an ordered list of
job descriptors.  Each Python helper returns a one-entry dict `{key: job}`
where `job` is a string-keyed mapping; we model a job as a record with
optional fields (`none` models an absent key in the Python dict) and each
emitted `{key: job}` pair as an `Entry`.

Serialization (`indent`, which calls the external `yaml.dump`, and the Jinja
template rendering in `__main__`) is the external collaborator's contract and
is not part of the expansion logic; the expansion functions are modelled up
to the descriptor sequence that the Python code hands to `indent`.

The Python parameter named `prefix` is rendered as `pfx` here (Lean reserves
the word); `filter_branch` is `None` or a string in Python, modelled as
`Option String`, with Python truthiness (`if filter_branch:`) captured by
`truthy`.
-/

namespace Regenerate

/-- The branch/tag restriction object built by `gen_filter_branch_tree`. -/
structure FilterTree where
  branches_only : List String
  tags_only : String
deriving DecidableEq, Repr

/-- One CI job descriptor (the inner dict built by the generator functions).
A `none` field models a key that the Python code did not put in the dict. -/
structure Job where
  name : String
  python_version : Option String := none
  requires : Option (List String) := none
  filters : Option FilterTree := none
  context : Option String := none
deriving DecidableEq, Repr

/-- One emitted workflow element `{key: job}`. -/
structure Entry where
  key : String
  job : Job
deriving DecidableEq, Repr

/-- `PYTHON_VERSIONS = ["3.6", "3.7", "3.8"]` (line 22). -/
def PYTHON_VERSIONS : List String := ["3.6", "3.7", "3.8"]

/-- Python truthiness of the `filter_branch` argument: `if filter_branch:`
is taken when it is a non-empty string. -/
def truthy : Option String → Bool
  | none => false
  | some s => s != ""

/-- Python's `s.startswith(pre)`, expressed structurally over the character
list so that it evaluates inside the kernel. -/
def startswith (s pre : String) : Bool := pre.data.isPrefixOf s.data

/-- `gen_filter_branch_tree(*branches)` (lines 87-97): the varargs tuple is
modelled as a list. -/
def gen_filter_branch_tree (branches : List String) : FilterTree :=
  { branches_only := branches
    tags_only := "/v[0-9]+(\\.[0-9]+)*-rc[0-9]+/" }

/-- The conditional `if filter_branch: d["filters"] = gen_filter_branch_tree(filter_branch)`
shared by `build_download_job`, `generate_base_workflow`,
`generate_upload_workflow` and `generate_smoketest_workflow`. -/
def opt_filters : Option String → Option FilterTree
  | none => none
  | some s => if s = "" then none else some (gen_filter_branch_tree [s])

/-- `build_download_job(filter_branch)` (lines 36-43). -/
def build_download_job (filter_branch : Option String) : List Entry :=
  [{ key := "download_third_parties_nix"
     job := { name := "download_third_parties_nix"
              filters := opt_filters filter_branch } }]

/-- The base workflow name `"{prefix}binary_{os_type}_{btype}_py{python_version}"`
formatted in `build_workflow_pair` (lines 49-54). -/
def base_workflow_name (pfx os_type btype python_version : String) : String :=
  pfx ++ "binary_" ++ os_type ++ "_" ++ btype ++ "_py" ++ python_version

/-- `generate_base_workflow(base_workflow_name, python_version, filter_branch, os_type, btype)`
(lines 71-84). -/
def generate_base_workflow (bwn python_version : String) (filter_branch : Option String)
    (os_type btype : String) : Entry :=
  { key := "binary_" ++ os_type ++ "_" ++ btype
    job := { name := bwn
             python_version := some python_version
             requires := if os_type = "linux" ∨ os_type = "macos" then
                 some ["download_third_parties_nix"]
               else none
             filters := opt_filters filter_branch } }

/-- `generate_upload_workflow(base_workflow_name, filter_branch, btype)` (lines 100-110). -/
def generate_upload_workflow (bwn : String) (filter_branch : Option String)
    (btype : String) : Entry :=
  { key := "binary_" ++ btype ++ "_upload"
    job := { name := bwn ++ "_upload"
             context := some "org-member"
             requires := some [bwn]
             filters := opt_filters filter_branch } }

/-- `generate_smoketest_workflow(pydistro, base_workflow_name, filter_branch, python_version, os_type)`
(lines 113-129): `required_build_name = base_workflow_name + "_upload"`,
`smoke_suffix = "smoke_test_{pydistro}"`, `name = "{base_workflow_name}_{smoke_suffix}"`. -/
def generate_smoketest_workflow (pydistro bwn : String) (filter_branch : Option String)
    (python_version os_type : String) : Entry :=
  { key := "smoke_test_" ++ os_type ++ "_" ++ pydistro
    job := { name := bwn ++ "_" ++ ("smoke_test_" ++ pydistro)
             requires := some [bwn ++ "_upload"]
             python_version := some python_version
             filters := opt_filters filter_branch } }

/-- `build_workflow_pair(btype, os_type, python_version, filter_branch, prefix, upload)`
(lines 46-68). -/
def build_workflow_pair (btype os_type python_version : String)
    (filter_branch : Option String) (pfx : String) (upload : Bool) : List Entry :=
  let bwn := base_workflow_name pfx os_type btype python_version
  let base := generate_base_workflow bwn python_version filter_branch os_type btype
  if upload then
    let is_py3_linux : Bool :=
      (os_type == "linux" || os_type == "windows") && !(startswith python_version "2.")
    let up := generate_upload_workflow bwn filter_branch btype
    if filter_branch == some "nightly" && is_py3_linux then
      let pydistro := if btype == "wheel" then "pip" else "conda"
      [base, up, generate_smoketest_workflow pydistro bwn filter_branch python_version os_type]
    else
      [base, up]
  else
    [base]

/-- `build_workflows(prefix, upload, filter_branch, indentation)` (lines 25-33),
up to the descriptor list `w` handed to the external serializer `indent`. -/
def build_workflows (pfx : String) (upload : Bool) (filter_branch : Option String) :
    List Entry :=
  build_download_job filter_branch ++
    (["wheel", "conda"].flatMap fun btype =>
      ["linux", "macos", "windows"].flatMap fun os_type =>
        PYTHON_VERSIONS.flatMap fun python_version =>
          build_workflow_pair btype os_type python_version filter_branch pfx upload)

/-- `unittest_workflows(indentation)` (lines 136-162), up to the descriptor
list `jobs` handed to the external serializer `indent`. -/
def unittest_workflows : List Entry :=
  build_download_job none ++
    (["linux", "windows"].flatMap fun os_type =>
      ["cpu", "gpu"].flatMap fun device_type =>
        PYTHON_VERSIONS.enum.flatMap fun ipv =>
          let i := ipv.1
          let python_version := ipv.2
          [{ key := "unittest_" ++ os_type ++ "_" ++ device_type
             job := { name := "unittest_" ++ os_type ++ "_" ++ device_type
                        ++ "_py" ++ python_version
                      python_version := some python_version
                      filters := if device_type == "gpu" then
                          some (gen_filter_branch_tree ["master", "nightly"])
                        else none
                      requires := if os_type != "windows" then
                          some ["download_third_parties_nix"]
                        else none } }] ++
          (if i == 0 && os_type == "linux" && device_type == "cpu" then
            [{ key := "stylecheck"
               job := { name := "stylecheck_py" ++ python_version
                        python_version := some python_version } }]
          else []))

/-- An entry is an upload descriptor when its key is one emitted by
`generate_upload_workflow` for the package types iterated by `build_workflows`. -/
def Entry.isUploadDesc (w : Entry) : Prop :=
  w.key = "binary_wheel_upload" ∨ w.key = "binary_conda_upload"

/-- An entry is a smoke-test descriptor when its key carries the
`smoke_test_` key pattern of `generate_smoketest_workflow`. -/
def Entry.isSmokeDesc (w : Entry) : Prop :=
  startswith w.key "smoke_test_"

instance (w : Entry) : Decidable w.isUploadDesc := by unfold Entry.isUploadDesc; infer_instance
instance (w : Entry) : Decidable w.isSmokeDesc := by unfold Entry.isSmokeDesc; infer_instance

/-- The names emitted by `build_workflows` after the download job, each
stripped of the caller-chosen name prefix: one base name per
(btype, os_type, python_version) triple, followed by the upload name when
`upload` is set and the smoke-test name when additionally the branch filter
equals `"nightly"` and the OS is eligible.  (For the versions in
`PYTHON_VERSIONS`, `startswith("2.")` is always false, so it does not appear
here.) -/
def build_name_suffixes (upload nightly : Bool) : List String :=
  ["wheel", "conda"].flatMap fun btype =>
    ["linux", "macos", "windows"].flatMap fun os_type =>
      PYTHON_VERSIONS.flatMap fun pv =>
        let s := "binary_" ++ os_type ++ "_" ++ btype ++ "_py" ++ pv
        [s] ++
          (if upload then
            [s ++ "_upload"] ++
              (if nightly && (os_type == "linux" || os_type == "windows") then
                [s ++ "_" ++ ("smoke_test_" ++ (if btype == "wheel" then "pip" else "conda"))]
              else [])
          else [])

section Helpers

/-- `opt_filters` yields a filter exactly when `filter_branch` is truthy. -/
theorem opt_filters_isSome (fb : Option String) : (opt_filters fb).isSome = truthy fb := by
  cases fb with
  | none => rfl
  | some s =>
      by_cases h : s = "" <;> simp [opt_filters, truthy, h]

/-- String concatenation is left-cancellative. -/
theorem str_append_left_cancel {a b c : String} (h : a ++ b = a ++ c) : b = c := by
  have hd := congrArg String.data h
  rw [String.data_append, String.data_append] at hd
  exact String.ext (List.append_cancel_left hd)

/-- Every chain produced by `build_workflow_pair` starts with the base
descriptor. -/
theorem pair_head (btype os_type pv : String) (fb : Option String) (pfx : String)
    (upload : Bool) :
    (build_workflow_pair btype os_type pv fb pfx upload).head? =
      some (generate_base_workflow (base_workflow_name pfx os_type btype pv) pv fb
        os_type btype) := by
  simp only [build_workflow_pair]
  split
  · split <;> rfl
  · rfl

/-- The base descriptor is always a member of the chain. -/
theorem base_mem_pair (btype os_type pv : String) (fb : Option String) (pfx : String)
    (upload : Bool) :
    generate_base_workflow (base_workflow_name pfx os_type btype pv) pv fb os_type btype ∈
      build_workflow_pair btype os_type pv fb pfx upload := by
  simp only [build_workflow_pair]
  split
  · split <;> exact List.mem_cons_self _ _
  · exact List.mem_cons_self _ _

/-- Every member of a chain is the base, the upload, or the smoke-test
descriptor of that chain. -/
theorem mem_pair {btype os_type pv : String} {fb : Option String} {pfx : String}
    {upload : Bool} {w : Entry}
    (hw : w ∈ build_workflow_pair btype os_type pv fb pfx upload) :
    w = generate_base_workflow (base_workflow_name pfx os_type btype pv) pv fb os_type btype ∨
    w = generate_upload_workflow (base_workflow_name pfx os_type btype pv) fb btype ∨
    w = generate_smoketest_workflow (if btype == "wheel" then "pip" else "conda")
          (base_workflow_name pfx os_type btype pv) fb pv os_type := by
  simp only [build_workflow_pair] at hw
  split at hw
  · split at hw
    · simp only [List.mem_cons, List.not_mem_nil, or_false] at hw
      tauto
    · simp only [List.mem_cons, List.not_mem_nil, or_false] at hw
      tauto
  · simp only [List.mem_cons, List.not_mem_nil, or_false] at hw
    tauto

/-- Every member of a chain carries exactly the filter object derived from the
`filter_branch` argument of the call. -/
theorem mem_pair_filters {btype os_type pv : String} {fb : Option String} {pfx : String}
    {upload : Bool} {w : Entry}
    (hw : w ∈ build_workflow_pair btype os_type pv fb pfx upload) :
    w.job.filters = opt_filters fb := by
  rcases mem_pair hw with rfl | rfl | rfl <;> rfl

/-- None of the fixed python versions is a legacy 2.x version. -/
theorem py_not_legacy : ((startswith "3.6" "2.") = false) ∧ ((startswith "3.7" "2.") = false)
    ∧ ((startswith "3.8" "2.") = false) := by decide

/-- The names emitted by `build_workflows` are the download-job name followed
by the per-chain names, each of which is the caller's name prefix glued onto a
fixed suffix. -/
theorem build_workflows_names (pfx : String) (fb : Option String) (upload : Bool) :
    (build_workflows pfx upload fb).map (fun w => w.job.name) =
      "download_third_parties_nix" ::
        (build_name_suffixes upload (fb == some "nightly")).map (fun s => pfx ++ s) := by
  by_cases hfb : fb = some "nightly"
  · subst hfb
    cases upload <;>
      simp [build_workflows, build_download_job, build_workflow_pair, generate_base_workflow,
        generate_upload_workflow, generate_smoketest_workflow, base_workflow_name,
        build_name_suffixes, PYTHON_VERSIONS, String.append_assoc,
        py_not_legacy.1, py_not_legacy.2.1, py_not_legacy.2.2]
  · have hfb' : (fb == some "nightly") = false := beq_eq_false_iff_ne.mpr hfb
    cases upload <;>
      simp [build_workflows, build_download_job, build_workflow_pair, generate_base_workflow,
        generate_upload_workflow, generate_smoketest_workflow, base_workflow_name,
        build_name_suffixes, PYTHON_VERSIONS, String.append_assoc, hfb',
        py_not_legacy.1, py_not_legacy.2.1, py_not_legacy.2.2]

/-- No stripped chain-name suffix is empty or ends in the final character of
the download job's name. -/
theorem suffix_last_char (u n : Bool) : ∀ s ∈ build_name_suffixes u n,
    s.data ≠ [] ∧ s.data.getLast? ≠ some 'x' := by
  cases u <;> cases n <;> decide

/-- No chain name, whatever the caller's name prefix, collides with the
download job's name. -/
theorem download_not_mem_suffixes (pfx : String) (u n : Bool) :
    "download_third_parties_nix" ∉ (build_name_suffixes u n).map (fun s => pfx ++ s) := by
  intro h
  rcases List.mem_map.1 h with ⟨s, hs, heq⟩
  obtain ⟨hne, hlast⟩ := suffix_last_char u n s hs
  apply hlast
  have hdata : pfx.data ++ s.data = "download_third_parties_nix".data := by
    rw [← String.data_append, heq]
  have hx : (pfx.data ++ s.data).getLast? = some 'x' := by rw [hdata]; decide
  rwa [List.getLast?_append_of_ne_nil _ hne] at hx

/-- The three possible shapes of a chain: base only; base, upload and smoke
test; or base and upload. -/
theorem pair_cases (btype os_type pv : String) (fb : Option String) (pfx : String)
    (upload : Bool) :
    (upload = false ∧ build_workflow_pair btype os_type pv fb pfx upload =
      [generate_base_workflow (base_workflow_name pfx os_type btype pv) pv fb os_type btype]) ∨
    (upload = true ∧
      ((fb == some "nightly") && ((os_type == "linux" || os_type == "windows")
          && !(startswith pv "2."))) = true ∧
      build_workflow_pair btype os_type pv fb pfx upload =
        [generate_base_workflow (base_workflow_name pfx os_type btype pv) pv fb os_type btype,
         generate_upload_workflow (base_workflow_name pfx os_type btype pv) fb btype,
         generate_smoketest_workflow (if btype == "wheel" then "pip" else "conda")
           (base_workflow_name pfx os_type btype pv) fb pv os_type]) ∨
    (upload = true ∧
      ((fb == some "nightly") && ((os_type == "linux" || os_type == "windows")
          && !(startswith pv "2."))) = false ∧
      build_workflow_pair btype os_type pv fb pfx upload =
        [generate_base_workflow (base_workflow_name pfx os_type btype pv) pv fb os_type btype,
         generate_upload_workflow (base_workflow_name pfx os_type btype pv) fb btype]) := by
  cases upload with
  | false => exact Or.inl ⟨rfl, rfl⟩
  | true =>
      cases hc : ((fb == some "nightly") && ((os_type == "linux" || os_type == "windows")
          && !(startswith pv "2."))) with
      | false =>
          refine Or.inr (Or.inr ⟨rfl, rfl, ?_⟩)
          simp [build_workflow_pair, hc]
      | true =>
          refine Or.inr (Or.inl ⟨rfl, rfl, ?_⟩)
          simp [build_workflow_pair, hc]

/-- When the nightly/eligibility condition holds, the smoke-test descriptor is
a member of the chain. -/
theorem smoke_mem_pair (btype os_type pv : String) (fb : Option String) (pfx : String)
    (hc : ((fb == some "nightly") && ((os_type == "linux" || os_type == "windows")
        && !(startswith pv "2."))) = true) :
    generate_smoketest_workflow (if btype == "wheel" then "pip" else "conda")
        (base_workflow_name pfx os_type btype pv) fb pv os_type ∈
      build_workflow_pair btype os_type pv fb pfx true := by
  simp [build_workflow_pair, hc]

end Helpers

/-- C5: for every name prefix, upload flag and branch filter, the sequence
produced by `build_workflows` contains exactly one descriptor named
`"download_third_parties_nix"`, it is the first descriptor of the sequence,
and a downstream descriptor for a non-windows OS (the linux wheel base job)
lists it as a dependency — so the "present exactly when depended upon"
biconditional holds with both sides true on every call. -/
theorem download_prerequisite (pfx : String) (fb : Option String) (upload : Bool) :
    ((build_workflows pfx upload fb).map (fun w => w.job.name)).count
        "download_third_parties_nix" = 1 ∧
    (build_workflows pfx upload fb).head?.map (fun w => w.job.name)
        = some "download_third_parties_nix" ∧
    ∃ w ∈ (build_workflows pfx upload fb).tail,
      w.key = "binary_linux_wheel" ∧
      w.job.requires = some ["download_third_parties_nix"] := by
  refine ⟨?_, rfl, ?_⟩
  · rw [build_workflows_names, List.count_cons_self,
      List.count_eq_zero.2 (download_not_mem_suffixes pfx upload _)]
  · refine ⟨generate_base_workflow (base_workflow_name pfx "linux" "wheel" "3.6") "3.6" fb
      "linux" "wheel", ?_, rfl, rfl⟩
    exact List.mem_flatMap.2 ⟨"wheel", by decide,
      List.mem_flatMap.2 ⟨"linux", by decide,
        List.mem_flatMap.2 ⟨"3.6", by decide, base_mem_pair "wheel" "linux" "3.6" fb pfx upload⟩⟩⟩

/-- C6: no two descriptors produced by one call of `build_workflows` share a
name, and no two descriptors produced by `unittest_workflows` share a name. -/
theorem names_unique (pfx : String) (fb : Option String) (upload : Bool) :
    ((build_workflows pfx upload fb).map (fun w => w.job.name)).Nodup ∧
    (unittest_workflows.map (fun w => w.job.name)).Nodup := by
  constructor
  · rw [build_workflows_names]
    refine List.nodup_cons.2 ⟨download_not_mem_suffixes pfx upload _, ?_⟩
    refine List.Nodup.map (fun a b h => str_append_left_cancel h) ?_
    cases upload <;> cases hfb : (fb == some "nightly") <;> decide
  · decide

/-- C7: for every non-empty list of branch names, `gen_filter_branch_tree`
puts exactly the given branch list under branches/only and the fixed
release-candidate tag regex under tags/only, and that regex is the same
constant for every input. -/
theorem filter_tree_shape (branches : List String) (h : branches ≠ []) :
    (gen_filter_branch_tree branches).branches_only = branches ∧
    (gen_filter_branch_tree branches).tags_only = "/v[0-9]+(\\.[0-9]+)*-rc[0-9]+/" ∧
    ∀ other : List String,
      (gen_filter_branch_tree branches).tags_only = (gen_filter_branch_tree other).tags_only :=
  ⟨rfl, rfl, fun _ => rfl⟩

/-- Witness for C7 at the concrete input `["nightly"]`. -/
theorem filter_tree_shape_witness :
    (["nightly"] : List String) ≠ [] ∧
      ((gen_filter_branch_tree ["nightly"]).branches_only = ["nightly"] ∧
       (gen_filter_branch_tree ["nightly"]).tags_only = "/v[0-9]+(\\.[0-9]+)*-rc[0-9]+/" ∧
       ∀ other : List String,
         (gen_filter_branch_tree ["nightly"]).tags_only
           = (gen_filter_branch_tree other).tags_only) :=
  ⟨by decide, filter_tree_shape ["nightly"] (by decide)⟩

/-- C8: the expansion is a deterministic total function of its arguments —
calls with identical inputs yield identical descriptor sequences (the
byte-level serialization of that sequence is the external collaborator's
task and is outside the expansion). -/
theorem expansion_deterministic (p₁ p₂ : String) (u₁ u₂ : Bool) (f₁ f₂ : Option String)
    (hp : p₁ = p₂) (hu : u₁ = u₂) (hf : f₁ = f₂) :
    build_workflows p₁ u₁ f₁ = build_workflows p₂ u₂ f₂ ∧
    unittest_workflows = unittest_workflows := by
  subst hp hu hf; exact ⟨rfl, rfl⟩

/-- Witness for C8 at concrete identical inputs. -/
theorem expansion_deterministic_witness :
    ("" : String) = "" ∧ (true = true) ∧ (some "nightly" = some "nightly") ∧
      (build_workflows "" true (some "nightly") = build_workflows "" true (some "nightly") ∧
       unittest_workflows = unittest_workflows) :=
  ⟨rfl, rfl, rfl, expansion_deterministic "" "" true true (some "nightly") (some "nightly")
    rfl rfl rfl⟩

/-- C9: `unittest_workflows` emits exactly one style-check descriptor; it sits
at index 2, immediately after the first (linux, cpu) unit-test job, which uses
the first python version, and is named after that first python version. -/
theorem stylecheck_once :
    (unittest_workflows.filter (fun w => w.key == "stylecheck")).map (fun w => w.job.name)
        = ["stylecheck_py3.6"] ∧
    unittest_workflows[2]? = some
      { key := "stylecheck"
        job := { name := "stylecheck_py3.6", python_version := some "3.6" } } ∧
    unittest_workflows[1]? = some
      { key := "unittest_linux_cpu"
        job := { name := "unittest_linux_cpu_py3.6", python_version := some "3.6",
                 requires := some ["download_third_parties_nix"] } } ∧
    PYTHON_VERSIONS[0]? = some "3.6" := by
  decide

/-- C10: a base build descriptor requires exactly the shared download job for
linux and macos, and carries no requires at all (modelled as `none`) for
windows, whatever the other arguments are. -/
theorem base_requires_by_os (bwn pv : String) (fb : Option String) (btype : String) :
    (generate_base_workflow bwn pv fb "linux" btype).job.requires
        = some ["download_third_parties_nix"] ∧
    (generate_base_workflow bwn pv fb "macos" btype).job.requires
        = some ["download_third_parties_nix"] ∧
    (generate_base_workflow bwn pv fb "windows" btype).job.requires = none :=
  ⟨rfl, rfl, rfl⟩

/-- C1: for every chain produced by `build_workflows` (package type and OS
drawn from its fixed enumerations; any python version, name prefix, branch
filter and upload flag), the chain starts with the base descriptor named
`base_workflow_name`; an upload descriptor, whenever emitted, requires exactly
that base name and is itself named base name + "_upload"; and a smoke-test
descriptor, whenever emitted, requires exactly that upload name. -/
theorem chain_requires (pfx pv : String) (fb : Option String) (upload : Bool)
    (btype os_type : String)
    (hb : btype ∈ ["wheel", "conda"]) (ho : os_type ∈ ["linux", "macos", "windows"]) :
    (build_workflow_pair btype os_type pv fb pfx upload).head?.map (fun w => w.job.name)
        = some (base_workflow_name pfx os_type btype pv) ∧
    ∀ w ∈ build_workflow_pair btype os_type pv fb pfx upload,
      (w.isUploadDesc →
        w.job.requires = some [base_workflow_name pfx os_type btype pv] ∧
        w.job.name = base_workflow_name pfx os_type btype pv ++ "_upload") ∧
      (w.isSmokeDesc →
        w.job.requires = some [base_workflow_name pfx os_type btype pv ++ "_upload"]) := by
  fin_cases hb <;> fin_cases ho <;>
    (refine ⟨by rw [pair_head]; rfl, ?_⟩
     intro w hw
     rcases mem_pair hw with rfl | rfl | rfl
     · exact ⟨fun h => absurd h (of_decide_eq_false rfl),
         fun h => absurd h (of_decide_eq_false rfl)⟩
     · exact ⟨fun _ => ⟨rfl, rfl⟩, fun h => absurd h (of_decide_eq_false rfl)⟩
     · exact ⟨fun h => absurd h (of_decide_eq_false rfl), fun _ => rfl⟩)

/-- Witness for C1 at the nightly linux wheel chain for python 3.7. -/
theorem chain_requires_witness :
    ("wheel" : String) ∈ ["wheel", "conda"] ∧
    ("linux" : String) ∈ ["linux", "macos", "windows"] ∧
    ((build_workflow_pair "wheel" "linux" "3.7" (some "nightly") "" true).head?.map
        (fun w => w.job.name) = some (base_workflow_name "" "linux" "wheel" "3.7") ∧
     ∀ w ∈ build_workflow_pair "wheel" "linux" "3.7" (some "nightly") "" true,
       (w.isUploadDesc →
         w.job.requires = some [base_workflow_name "" "linux" "wheel" "3.7"] ∧
         w.job.name = base_workflow_name "" "linux" "wheel" "3.7" ++ "_upload") ∧
       (w.isSmokeDesc →
         w.job.requires = some [base_workflow_name "" "linux" "wheel" "3.7" ++ "_upload"])) :=
  ⟨by decide, by decide,
    chain_requires "" "3.7" (some "nightly") true "wheel" "linux" (by decide) (by decide)⟩

/-- C2: a smoke-test descriptor is emitted by `build_workflow_pair` exactly
when upload is set, the branch filter is the nightly marker, the OS is linux
or windows and the python version does not start with "2."; its key carries
channel pip for wheels and conda otherwise; and the concrete nightly upload
example for (wheel, linux, 3.7) yields the three chained descriptors, each
with the nightly branch filter. -/
theorem smoketest_condition (pfx pv : String) (fb : Option String) (upload : Bool)
    (btype os_type : String)
    (hb : btype ∈ ["wheel", "conda"]) (ho : os_type ∈ ["linux", "macos", "windows"]) :
    ((∃ w ∈ build_workflow_pair btype os_type pv fb pfx upload, w.isSmokeDesc) ↔
      (upload = true ∧ fb = some "nightly" ∧ (os_type = "linux" ∨ os_type = "windows") ∧
        startswith pv "2." = false)) ∧
    (∀ w ∈ build_workflow_pair btype os_type pv fb pfx upload, w.isSmokeDesc →
      w.key = "smoke_test_" ++ os_type ++ "_"
        ++ (if btype = "wheel" then "pip" else "conda")) ∧
    ((build_workflow_pair "wheel" "linux" "3.7" (some "nightly") "" true).map
        (fun w => w.job.name) =
          ["binary_linux_wheel_py3.7", "binary_linux_wheel_py3.7_upload",
           "binary_linux_wheel_py3.7_smoke_test_pip"] ∧
     (build_workflow_pair "wheel" "linux" "3.7" (some "nightly") "" true).map
        (fun w => w.job.requires) =
          [some ["download_third_parties_nix"], some ["binary_linux_wheel_py3.7"],
           some ["binary_linux_wheel_py3.7_upload"]] ∧
     (build_workflow_pair "wheel" "linux" "3.7" (some "nightly") "" true).map
        (fun w => w.job.filters) =
          [some (gen_filter_branch_tree ["nightly"]), some (gen_filter_branch_tree ["nightly"]),
           some (gen_filter_branch_tree ["nightly"])]) := by
  refine ⟨⟨?_, ?_⟩, ?_, by decide⟩
  · rintro ⟨w, hw, hs⟩
    rcases pair_cases btype os_type pv fb pfx upload with ⟨hu, hp⟩ | ⟨hu, hc, hp⟩ | ⟨hu, hc, hp⟩
    · rw [hp] at hw
      simp only [List.mem_singleton] at hw
      subst hw
      fin_cases hb <;> fin_cases ho <;> exact absurd hs (of_decide_eq_false rfl)
    · subst hu
      simp only [Bool.and_eq_true, Bool.or_eq_true, Bool.not_eq_true', beq_iff_eq] at hc
      exact ⟨rfl, hc.1, hc.2.1, hc.2.2⟩
    · rw [hp] at hw
      fin_cases hb <;> fin_cases ho <;>
        (simp only [List.mem_cons, List.not_mem_nil, or_false] at hw
         rcases hw with rfl | rfl <;> exact absurd hs (of_decide_eq_false rfl))
  · rintro ⟨hu, hfb, hos, hpv⟩
    subst hu; subst hfb
    fin_cases hb <;> rcases hos with rfl | rfl <;>
      exact ⟨_, smoke_mem_pair _ _ pv (some "nightly") pfx (by simp [hpv]),
        of_decide_eq_true rfl⟩
  · fin_cases hb <;> fin_cases ho <;>
      (intro w hw hs
       rcases mem_pair hw with rfl | rfl | rfl
       · exact absurd hs (of_decide_eq_false rfl)
       · exact absurd hs (of_decide_eq_false rfl)
       · rfl)

/-- Witness for C2 at the nightly linux wheel parameters for python 3.7. -/
theorem smoketest_condition_witness :
    ("wheel" : String) ∈ ["wheel", "conda"] ∧
    ("linux" : String) ∈ ["linux", "macos", "windows"] ∧
    (((∃ w ∈ build_workflow_pair "wheel" "linux" "3.7" (some "nightly") "" true,
          w.isSmokeDesc) ↔
        (true = true ∧ (some "nightly" : Option String) = some "nightly" ∧
          (("linux" : String) = "linux" ∨ ("linux" : String) = "windows") ∧
          startswith "3.7" "2." = false)) ∧
     (∀ w ∈ build_workflow_pair "wheel" "linux" "3.7" (some "nightly") "" true,
        w.isSmokeDesc →
        w.key = "smoke_test_" ++ "linux" ++ "_"
          ++ (if ("wheel" : String) = "wheel" then "pip" else "conda")) ∧
     ((build_workflow_pair "wheel" "linux" "3.7" (some "nightly") "" true).map
          (fun w => w.job.name) =
            ["binary_linux_wheel_py3.7", "binary_linux_wheel_py3.7_upload",
             "binary_linux_wheel_py3.7_smoke_test_pip"] ∧
      (build_workflow_pair "wheel" "linux" "3.7" (some "nightly") "" true).map
          (fun w => w.job.requires) =
            [some ["download_third_parties_nix"], some ["binary_linux_wheel_py3.7"],
             some ["binary_linux_wheel_py3.7_upload"]] ∧
      (build_workflow_pair "wheel" "linux" "3.7" (some "nightly") "" true).map
          (fun w => w.job.filters) =
            [some (gen_filter_branch_tree ["nightly"]),
             some (gen_filter_branch_tree ["nightly"]),
             some (gen_filter_branch_tree ["nightly"])])) :=
  ⟨by decide, by decide,
    smoketest_condition "" "3.7" (some "nightly") true "wheel" "linux" (by decide) (by decide)⟩

/-- C3: a descriptor carries a filter object exactly when a branch filter was
requested for that call: every descriptor of `build_workflows` carries one iff
the `filter_branch` argument is truthy, and a descriptor of
`unittest_workflows` carries one iff it is a gpu unit-test job — the only jobs
for which the code requests a branch filter (the download job there is built
with `filter_branch=None`, and in particular with no filter requested nothing
carries a filter). -/
theorem filters_iff_requested :
    (∀ pfx fb upload, ∀ w ∈ build_workflows pfx upload fb,
        (w.job.filters).isSome = truthy fb) ∧
    (∀ w ∈ unittest_workflows,
        (w.job.filters).isSome
          = (w.key == "unittest_linux_gpu" || w.key == "unittest_windows_gpu")) := by
  constructor
  · intro pfx fb upload w hw
    rcases List.mem_append.1 hw with h | h
    · rw [List.mem_singleton.1 h]
      exact opt_filters_isSome fb
    · rcases List.mem_flatMap.1 h with ⟨btype, _, h⟩
      rcases List.mem_flatMap.1 h with ⟨os_type, _, h⟩
      rcases List.mem_flatMap.1 h with ⟨pv, _, h⟩
      rw [mem_pair_filters h]
      exact opt_filters_isSome fb
  · decide

/-- Witness for C3 at the download descriptor of
`build_workflows "" false none` (no filter requested, none carried). -/
theorem filters_iff_requested_witness :
    ({ key := "download_third_parties_nix",
       job := { name := "download_third_parties_nix" } } : Entry)
        ∈ build_workflows "" false none ∧
    ((({ key := "download_third_parties_nix",
         job := { name := "download_third_parties_nix" } } : Entry).job.filters).isSome
       = truthy none) :=
  ⟨by decide, filters_iff_requested.1 "" none false _ (by decide)⟩

/-- C4 counterexample: at the unrecognized os_type "riscos" generation does
not abort — `build_workflow_pair` silently emits a complete base descriptor,
with the os-specific requires rule skipped, instead of failing. -/
theorem no_abort_counterexample :
    build_workflow_pair "wheel" "riscos" "3.6" none "" false =
      [{ key := "binary_riscos_wheel",
         job := { name := "binary_riscos_wheel_py3.6",
                  python_version := some "3.6" } }] := by
  decide

/-- C4 amended: for any os_type outside the recognized linux/macos requires
rule, and any other dimension values, the generator does not abort: the chain
still begins with a fully formed base descriptor, whose requires field is
silently absent. -/
theorem no_abort_amended (btype os_type pv pfx : String) (fb : Option String)
    (upload : Bool) (h1 : os_type ≠ "linux") (h2 : os_type ≠ "macos") :
    (build_workflow_pair btype os_type pv fb pfx upload).head? =
      some (generate_base_workflow (base_workflow_name pfx os_type btype pv) pv fb
        os_type btype) ∧
    (generate_base_workflow (base_workflow_name pfx os_type btype pv) pv fb
        os_type btype).job.requires = none := by
  refine ⟨pair_head btype os_type pv fb pfx upload, ?_⟩
  simp [generate_base_workflow, h1, h2]

/-- Witness for the amended C4 at the concrete unrecognized os "riscos". -/
theorem no_abort_amended_witness :
    ("riscos" : String) ≠ "linux" ∧ ("riscos" : String) ≠ "macos" ∧
    ((build_workflow_pair "wheel" "riscos" "3.6" none "" false).head? =
        some (generate_base_workflow (base_workflow_name "" "riscos" "wheel" "3.6") "3.6" none
          "riscos" "wheel") ∧
     (generate_base_workflow (base_workflow_name "" "riscos" "wheel" "3.6") "3.6" none
        "riscos" "wheel").job.requires = none) :=
  ⟨by decide, by decide,
    no_abort_amended "wheel" "riscos" "3.6" "" none false (by decide) (by decide)⟩

end Regenerate
